import Mathlib

/-!
# Verification of the MARGSATHI translation route module

Shallow embedding of `src/backend/routes/translation.py`.

The module is a FastAPI router whose handlers call three external
collaborators: the deep-translator engine, the optional googletrans
engine, and the optional EasyOCR reader.  Those collaborators, together
with the two startup availability flags (`GOOGLETRANS_AVAILABLE`,
`OCR_AVAILABLE`), are modelled as an environment record `Env` passed to
each handler.  `HTTPException` is modelled as the error side of `Except`
carrying the status code and detail string.  Confidence scores, floats
in the source, are modelled as exact rationals.
-/

/-- An `HTTPException(status_code, detail)` raised by a handler. -/
structure HTTPError where
  status : Nat
  detail : String
deriving Repr, DecidableEq

/-- Pydantic model `TranslationRequest` (after schema validation; `provider`
is `Optional[...]` with default `"deep"`, so an omitted field arrives as
`some "deep"` and an explicit JSON `null` as `none`). -/
structure TranslationRequest where
  text : String
  target_lang : String
  source_lang : Option String
  provider : Option String
deriving Repr, DecidableEq

/-- Pydantic model `TranslationResponse`. -/
structure TranslationResponse where
  original_text : String
  translated_text : String
  source_lang : String
  target_lang : String
  provider : String
  confidence : Option ℚ
  is_mock : Bool
deriving Repr, DecidableEq

/-- Pydantic model `ImageTranslationResponse`. -/
structure ImageTranslationResponse where
  extracted_text : String
  translated_text : String
  source_lang : String
  target_lang : String
  provider : String
  ocr_confidence : Option ℚ
  is_mock : Bool
deriving Repr, DecidableEq

/-- Pydantic model `LanguageDetectionResponse`. -/
structure LanguageDetectionResponse where
  detected_lang : String
  language_name : String
  confidence : ℚ
deriving Repr, DecidableEq

/-- The uploaded file of `/translate-image`: its declared content type and
its bytes (`await file.read()`). -/
structure UploadFileM where
  content_type : String
  data : List Nat
deriving Repr, DecidableEq

/-- External collaborators and startup flags of the module.

* `googletransAvailable` — `GOOGLETRANS_AVAILABLE`, set by the import probe.
* `ocrAvailable` — `OCR_AVAILABLE = setup_ocr()`, set once at startup.
* `deepResult text src dst` — outcome of
  `GoogleTranslator(source=src, target=dst).translate(text)`; `Except.error`
  stands for a raised exception with the given message.
* `googleResult text src dst` — outcome of `GoogleTransAPI().translate`,
  `src = none` when the source hint is withheld; on success it gives the
  translated text and the optional `confidence` attribute.
* `googleDetect text` — outcome of `GoogleTransAPI().detect(text)`:
  detected code and confidence.
* `readtext bytes` — outcome of `EASYOCR_READER.readtext(bytes, detail=1)`
  projected to the (text, confidence) components in detection order; the
  error side also covers a failing `file.read()`. -/
structure Env where
  googletransAvailable : Bool
  ocrAvailable : Bool
  deepResult : String → String → String → Except String String
  googleResult : String → Option String → String → Except String (String × Option ℚ)
  googleDetect : String → Except String (String × ℚ)
  readtext : List Nat → Except String (List (String × ℚ))

/-- Python `str.upper()`, character by character. -/
def pyUpper (s : String) : String := ⟨s.data.map Char.toUpper⟩

/-- Python `str.strip()` on a character list: drop whitespace at both ends. -/
def stripChars (l : List Char) : List Char :=
  ((l.dropWhile Char.isWhitespace).reverse.dropWhile Char.isWhitespace).reverse

/-- Python `str.strip()`. -/
def pyStrip (s : String) : String := ⟨stripChars s.data⟩

/-- Python `str.startswith(pre)`. -/
def pyStartsWith (s pre : String) : Bool := pre.data.isPrefixOf s.data

/-- `LANGUAGE_NAMES` as an association list, in source order. -/
def LANGUAGE_NAMES : List (String × String) :=
  [("en", "English"), ("hi", "Hindi"), ("bn", "Bengali"), ("ta", "Tamil"),
   ("te", "Telugu"), ("mr", "Marathi"), ("kn", "Kannada"), ("ml", "Malayalam"),
   ("gu", "Gujarati")]

/-- `DEEP_TRANSLATOR_CODES` as an association list, in source order. -/
def DEEP_TRANSLATOR_CODES : List (String × String) :=
  [("en", "en"), ("hi", "hi"), ("bn", "bn"), ("ta", "ta"), ("te", "te"),
   ("mr", "mr"), ("kn", "kn"), ("ml", "ml"), ("gu", "gu")]

/-- Python `dict.get(key, default)` on an association list. -/
def dictGet (d : List (String × String)) (key dflt : String) : String :=
  match d.find? (fun p => p.1 == key) with
  | some p => p.2
  | none => dflt

/-- `translate_with_deep_translator` (lines 130–146). -/
def translate_with_deep_translator (env : Env) (text source_lang target_lang : String) :
    Except HTTPError (String × ℚ) :=
  match env.deepResult text (dictGet DEEP_TRANSLATOR_CODES source_lang "auto")
      (dictGet DEEP_TRANSLATOR_CODES target_lang "en") with
  | Except.ok translated => Except.ok (translated, 95/100)
  | Except.error e => Except.error ⟨500, "Translation failed: " ++ e⟩

/-- `translate_with_googletrans` (lines 149–172). -/
def translate_with_googletrans (env : Env) (text source_lang target_lang : String) :
    Except HTTPError (String × ℚ) :=
  if env.googletransAvailable then
    match env.googleResult text
        (if source_lang ≠ "auto" then some source_lang else none) target_lang with
    | Except.ok r => Except.ok (r.1, r.2.getD (9/10))
    | Except.error e => Except.error ⟨500, "Google Translate failed: " ++ e⟩
  else
    Except.error ⟨503, "Google Translate API not available. Install googletrans."⟩

/-- `mock_translate` (lines 175–178). -/
def mock_translate (text target_lang : String) : String × ℚ :=
  let marker := "[" ++ pyUpper target_lang ++ "]"
  (marker ++ " " ++ text, 1)

/-- Assembly of the `TranslationResponse` at the end of `translate_text`
(lines 215–226), including the `"auto" → "en"` rewrite of the resolved
source language. -/
def buildResponse (payload : TranslationRequest) (provider : String) (is_mock : Bool)
    (r : String × ℚ) : TranslationResponse :=
  { original_text := payload.text
    translated_text := r.1
    source_lang :=
      if payload.source_lang.getD "auto" = "auto" then "en"
      else payload.source_lang.getD "auto"
    target_lang := payload.target_lang
    provider := provider
    confidence := some r.2
    is_mock := is_mock }

/-- Handler of `POST /translate` (`translate_text`, lines 186–226).
`source_lang = payload.source_lang or "auto"`; dispatch on the provider
string with fall-through to deep-translator. -/
def translate_text (env : Env) (payload : TranslationRequest) :
    Except HTTPError TranslationResponse :=
  if payload.provider = some "mock" then
    Except.ok (buildResponse payload "mock" true
      (mock_translate payload.text payload.target_lang))
  else if payload.provider = some "google" then
    (translate_with_googletrans env payload.text (payload.source_lang.getD "auto")
      payload.target_lang).map (buildResponse payload "google-translate" false)
  else
    (translate_with_deep_translator env payload.text (payload.source_lang.getD "auto")
      payload.target_lang).map (buildResponse payload "deep-translator" false)

/-- Handler of `POST /translate-image` (`translate_image`, lines 234–313).
Order of checks: OCR availability, content type, OCR extraction, empty-text
check, provider dispatch, response assembly. -/
def translate_image (env : Env) (file : UploadFileM) (target_lang : String)
    (source_lang : Option String) (provider : String) :
    Except HTTPError ImageTranslationResponse :=
  if env.ocrAvailable then
    if pyStartsWith file.content_type "image/" then
      match env.readtext file.data with
      | Except.error e => Except.error ⟨500, "Failed to process image: " ++ e⟩
      | Except.ok results =>
        let extracted_text := String.intercalate " " (results.map Prod.fst)
        if pyStrip extracted_text = "" then
          Except.error ⟨400,
            "No text found in image. Please upload an image with clear text."⟩
        else
          let confidences := results.map Prod.snd
          let ocr_confidence : Option ℚ :=
            if confidences.length ≠ 0 then
              some (confidences.sum / (confidences.length : ℚ))
            else none
          let source := source_lang.getD "auto"
          let dispatched : Except HTTPError (String × Bool × String) :=
            if provider = "mock" then
              Except.ok ((mock_translate extracted_text target_lang).1, true, "mock")
            else if provider = "google" then
              (translate_with_googletrans env extracted_text source target_lang).map
                (fun r => (r.1, false, "google-translate"))
            else
              (translate_with_deep_translator env extracted_text source target_lang).map
                (fun r => (r.1, false, "deep-translator"))
          dispatched.map fun r =>
            { extracted_text := pyStrip extracted_text
              translated_text := r.1
              source_lang := if source ≠ "auto" then source else "en"
              target_lang := target_lang
              provider := r.2.2
              ocr_confidence := ocr_confidence
              is_mock := r.2.1 }
    else
      Except.error ⟨400, "File must be an image"⟩
  else
    Except.error ⟨503,
      "OCR engine (EasyOCR) is not initialized. Please check server logs."⟩

/-- Handler of `POST /detect-language` (`detect_language`, lines 321–342). -/
def detect_language (env : Env) (text : String) :
    Except HTTPError LanguageDetectionResponse :=
  if env.googletransAvailable then
    match env.googleDetect text with
    | Except.ok r =>
      Except.ok { detected_lang := r.1
                  language_name := dictGet LANGUAGE_NAMES r.1 "Unknown"
                  confidence := r.2 }
    | Except.error e => Except.error ⟨500, "Language detection failed: " ++ e⟩
  else
    Except.ok { detected_lang := "en"
                language_name := dictGet LANGUAGE_NAMES "en" "Unknown"
                confidence := 1/2 }

/-- Payload of `GET /status` (`get_translation_status`, lines 345–367),
flattened: `providers` booleans, image availability and engine name. -/
structure StatusResponse where
  text_available : Bool
  deep_translator : Bool
  googletrans : Bool
  mock : Bool
  image_available : Bool
  engine : Option String
  supported_languages : Nat
  status : String
deriving Repr, DecidableEq

/-- Handler of `GET /status`. -/
def get_translation_status (env : Env) : StatusResponse :=
  { text_available := true
    deep_translator := true
    googletrans := env.googletransAvailable
    mock := true
    image_available := env.ocrAvailable
    engine := if env.ocrAvailable then some "EasyOCR" else none
    supported_languages := LANGUAGE_NAMES.length
    status := "healthy" }

/-! ## Concrete environments for witnesses and counterexamples -/

/-- A degraded environment: the googletrans import failed and EasyOCR
failed to initialize; the deep-translator upstream succeeds. -/
def envDegraded : Env :=
  { googletransAvailable := false
    ocrAvailable := false
    deepResult := fun _ _ _ => Except.ok "bonjour"
    googleResult := fun _ _ _ => Except.error "offline"
    googleDetect := fun _ => Except.error "offline"
    readtext := fun _ => Except.ok [] }

/-- A fully available environment whose OCR oracle detects the two
fragments of the worked example in the spec. -/
def envOcr : Env :=
  { googletransAvailable := true
    ocrAvailable := true
    deepResult := fun _ _ _ => Except.ok "bonjour"
    googleResult := fun _ _ _ => Except.ok ("hola", none)
    googleDetect := fun _ => Except.ok ("hi", 98/100)
    readtext := fun _ => Except.ok [("Hi", 9/10), ("there", 7/10)] }

/-- Like `envOcr` but the single OCR fragment carries a leading space. -/
def envOcrPad : Env :=
  { envOcr with readtext := fun _ => Except.ok [(" Hi", 9/10)] }

/-- A PNG upload. -/
def fileW : UploadFileM := { content_type := "image/png", data := [0] }

/-- The response of `/translate` on the mock example payload. -/
def respMockHello : TranslationResponse :=
  { original_text := "hello"
    translated_text := "[HI] hello"
    source_lang := "en"
    target_lang := "hi"
    provider := "mock"
    confidence := some 1
    is_mock := true }

/-- The successful response of `/translate-image` on `envOcr`, `fileW`,
target `"hi"`, omitted source, mock provider. -/
def irespW : ImageTranslationResponse :=
  match translate_image envOcr fileW "hi" none "mock" with
  | Except.ok r => r
  | Except.error _ =>
    { extracted_text := "", translated_text := "", source_lang := "",
      target_lang := "", provider := "", ocr_confidence := none, is_mock := false }

/-! ## Helper lemmas -/

theorem except_map_eq_ok {ε α β : Type} {f : α → β} {e : Except ε α} {b : β}
    (h : Except.map f e = Except.ok b) : ∃ a, e = Except.ok a ∧ b = f a := by
  cases e with
  | error err => simp [Except.map] at h
  | ok a => exact ⟨a, rfl, by simpa [Except.map] using h.symm⟩

theorem string_append_assoc (a b c : String) : a ++ b ++ c = a ++ (b ++ c) := by
  apply String.ext
  simp [String.data_append]

/-- Inversion of a successful `/translate` call: the response is
`buildResponse` for the dispatched provider variant. -/
theorem translate_text_ok_cases (env : Env) (payload : TranslationRequest)
    (resp : TranslationResponse) (h : translate_text env payload = Except.ok resp) :
    ∃ pname m r, resp = buildResponse payload pname m r ∧
      ((payload.provider = some "mock" ∧ pname = "mock" ∧ m = true ∧
          r = mock_translate payload.text payload.target_lang) ∨
       (payload.provider = some "google" ∧ pname = "google-translate" ∧ m = false) ∨
       (payload.provider ≠ some "mock" ∧ payload.provider ≠ some "google" ∧
          pname = "deep-translator" ∧ m = false)) := by
  unfold translate_text at h
  by_cases hm : payload.provider = some "mock"
  · rw [if_pos hm] at h
    exact ⟨"mock", true, mock_translate payload.text payload.target_lang,
      (Except.ok.inj h).symm, Or.inl ⟨hm, rfl, rfl, rfl⟩⟩
  · rw [if_neg hm] at h
    by_cases hg : payload.provider = some "google"
    · rw [if_pos hg] at h
      obtain ⟨r, _, hresp⟩ := except_map_eq_ok h
      exact ⟨"google-translate", false, r, hresp, Or.inr (Or.inl ⟨hg, rfl, rfl⟩)⟩
    · rw [if_neg hg] at h
      obtain ⟨r, _, hresp⟩ := except_map_eq_ok h
      exact ⟨"deep-translator", false, r, hresp, Or.inr (Or.inr ⟨hm, hg, rfl, rfl⟩)⟩

/-- Inversion of a successful `/translate-image` call. -/
theorem translate_image_ok_cases (env : Env) (file : UploadFileM) (tl : String)
    (sl : Option String) (pr : String) (resp : ImageTranslationResponse)
    (h : translate_image env file tl sl pr = Except.ok resp) :
    ∃ results, env.readtext file.data = Except.ok results ∧
      results ≠ [] ∧
      resp.extracted_text = pyStrip (String.intercalate " " (results.map Prod.fst)) ∧
      resp.source_lang = (if sl.getD "auto" ≠ "auto" then sl.getD "auto" else "en") ∧
      resp.ocr_confidence =
        some ((results.map Prod.snd).sum / ((results.map Prod.snd).length : ℚ)) := by
  unfold translate_image at h
  by_cases hocr : env.ocrAvailable
  · rw [if_pos hocr] at h
    by_cases hct : pyStartsWith file.content_type "image/"
    · rw [if_pos hct] at h
      cases hrt : env.readtext file.data with
      | error e => rw [hrt] at h; exact absurd h (by simp)
      | ok results =>
        rw [hrt] at h
        simp only at h
        by_cases hemp : pyStrip (String.intercalate " " (results.map Prod.fst)) = ""
        · rw [if_pos hemp] at h; exact absurd h (by simp)
        · rw [if_neg hemp] at h
          obtain ⟨r, _, hresp⟩ := except_map_eq_ok h
          subst hresp
          cases results with
          | nil => exact absurd rfl hemp
          | cons a as =>
            refine ⟨a :: as, rfl, by simp, rfl, rfl, ?_⟩
            simp only
            rw [if_pos (by simp)]
    · rw [if_neg hct] at h; exact absurd h (by simp)
  · rw [if_neg hocr] at h; exact absurd h (by simp)

/-! ## Claims -/

/-- C1: For every `/translate` request whose `source_lang` is omitted (or
resolves to `"auto"`), the `source_lang` field of the returned result is the
literal `"en"`, whatever providers and oracles do; the same holds for every
successful `/translate-image` result when `source_lang` is omitted. -/
theorem C1_auto_source_resolves_to_en :
    (∀ (env : Env) (payload : TranslationRequest) (resp : TranslationResponse),
      (payload.source_lang = none ∨ payload.source_lang = some "auto") →
      translate_text env payload = Except.ok resp → resp.source_lang = "en") ∧
    (∀ (env : Env) (file : UploadFileM) (tl : String) (sl : Option String)
      (pr : String) (resp : ImageTranslationResponse),
      (sl = none ∨ sl = some "auto") →
      translate_image env file tl sl pr = Except.ok resp → resp.source_lang = "en") := by
  constructor
  · intro env payload resp hs h
    obtain ⟨pname, m, r, hresp, _⟩ := translate_text_ok_cases env payload resp h
    have hga : payload.source_lang.getD "auto" = "auto" := by
      rcases hs with h1 | h1 <;> rw [h1] <;> rfl
    subst hresp
    simp [buildResponse, hga]
  · intro env file tl sl pr resp hs h
    obtain ⟨results, _, _, _, hsl, _⟩ := translate_image_ok_cases env file tl sl pr resp h
    have hga : sl.getD "auto" = "auto" := by
      rcases hs with h1 | h1 <;> rw [h1] <;> rfl
    rw [hsl, if_neg (by simp [hga])]

/-- Witness for C1: a mock `/translate` call with omitted source and a
successful `/translate-image` call with omitted source both report
`source_lang = "en"`. -/
theorem C1_auto_source_resolves_to_en_witness :
    (translate_text envDegraded
        { text := "hello", target_lang := "hi", source_lang := none,
          provider := some "mock" } = Except.ok respMockHello ∧
      respMockHello.source_lang = "en") ∧
    (translate_image envOcr fileW "hi" none "mock" = Except.ok irespW ∧
      irespW.source_lang = "en") :=
  ⟨⟨rfl, C1_auto_source_resolves_to_en.1 envDegraded
      { text := "hello", target_lang := "hi", source_lang := none,
        provider := some "mock" } respMockHello (Or.inl rfl) rfl⟩,
   ⟨rfl, C1_auto_source_resolves_to_en.2 envOcr fileW "hi" none "mock" irespW
      (Or.inl rfl) rfl⟩⟩

/-- C2: the mock provider returns exactly `"[" + upper(target) + "] " + text`
with confidence 1, never fails (it is a total pure function) and is
deterministic; mock translation of `"hello"` to `"hi"` yields
`"[HI] hello"` with confidence 1 and `is_mock = true` in the response. -/
theorem C2_mock_provider_behaviour (env : Env) :
    (∀ text target_lang, mock_translate text target_lang =
        ("[" ++ pyUpper target_lang ++ "] " ++ text, 1)) ∧
    (∀ text target_lang,
        mock_translate text target_lang = mock_translate text target_lang) ∧
    translate_text env
        { text := "hello", target_lang := "hi", source_lang := none,
          provider := some "mock" } = Except.ok respMockHello ∧
    respMockHello.translated_text = "[HI] hello" ∧
    respMockHello.confidence = some 1 ∧
    respMockHello.is_mock = true := by
  refine ⟨?_, fun _ _ => rfl, rfl, rfl, rfl, rfl⟩
  intro text tl
  unfold mock_translate
  simp only
  rw [string_append_assoc ("[" ++ pyUpper tl) "]" " "]
  rfl

/-- C3: if OCR failed to initialize, `/translate-image` fails with the 503
backend-unavailable error for every file and parameter combination, and the
outcome does not depend on the OCR-extraction oracle at all (no extraction
is attempted). -/
theorem C3_ocr_unavailable_always_503 (env : Env) (file : UploadFileM)
    (tl : String) (sl : Option String) (pr : String)
    (h : env.ocrAvailable = false) :
    translate_image env file tl sl pr = Except.error
      ⟨503, "OCR engine (EasyOCR) is not initialized. Please check server logs."⟩ ∧
    ∀ rt, translate_image { env with readtext := rt } file tl sl pr =
      translate_image env file tl sl pr := by
  constructor
  · unfold translate_image
    rw [if_neg (by simp [h])]
  · intro rt
    unfold translate_image
    rw [if_neg (by simp [h]), if_neg (by simp [h])]

/-- Witness for C3 on the degraded environment. -/
theorem C3_ocr_unavailable_always_503_witness :
    envDegraded.ocrAvailable = false ∧
    translate_image envDegraded fileW "hi" none "deep" = Except.error
      ⟨503, "OCR engine (EasyOCR) is not initialized. Please check server logs."⟩ :=
  ⟨rfl, (C3_ocr_unavailable_always_503 envDegraded fileW "hi" none "deep" rfl).1⟩

theorem except_map_congr {ε α β : Type} {f g : α → β} (e : Except ε α)
    (h : ∀ a, f a = g a) : Except.map f e = Except.map g e := by
  cases e <;> simp [Except.map, h]

/-- C4 counterexample: with the single OCR fragment `" Hi"` (confidence 0.9)
the call succeeds and the response's `extracted_text` is the stripped
`"Hi"`, not the plain space-join `" Hi"` the claim states. -/
theorem C4_plain_join_counterexample :
    (translate_image envOcrPad fileW "hi" none "mock").map
        (fun r => r.extracted_text) = Except.ok "Hi" ∧
    String.intercalate " " ([(" Hi", (9:ℚ)/10)].map Prod.fst) = " Hi" ∧
    ("Hi" : String) ≠ " Hi" :=
  ⟨rfl, rfl, by decide⟩

/-- C4 amended: for every `/translate-image` call where OCR is available:
if the space-joined extracted text is empty or whitespace-only the call
fails with the 400 no-text-detected error; otherwise every successful
response carries the space-join of the fragment texts in detection order
with leading and trailing whitespace stripped, and `ocr_confidence` is the
arithmetic mean of the per-fragment confidences. -/
theorem C4_extracted_text_and_mean (env : Env) (file : UploadFileM)
    (tl : String) (sl : Option String) (pr : String) (results : List (String × ℚ))
    (hocr : env.ocrAvailable = true)
    (hrt : env.readtext file.data = Except.ok results) :
    (pyStrip (String.intercalate " " (results.map Prod.fst)) = "" →
      pyStartsWith file.content_type "image/" = true →
      translate_image env file tl sl pr = Except.error
        ⟨400, "No text found in image. Please upload an image with clear text."⟩) ∧
    (∀ resp, translate_image env file tl sl pr = Except.ok resp →
      resp.extracted_text = pyStrip (String.intercalate " " (results.map Prod.fst)) ∧
      resp.ocr_confidence =
        some ((results.map Prod.snd).sum / ((results.map Prod.snd).length : ℚ))) := by
  constructor
  · intro hemp hct
    unfold translate_image
    rw [if_pos hocr, if_pos hct, hrt]
    simp only
    rw [if_pos hemp]
  · intro resp h
    obtain ⟨results2, hrt2, _, hext, _, hconf⟩ :=
      translate_image_ok_cases env file tl sl pr resp h
    rw [hrt] at hrt2
    obtain rfl := Except.ok.inj hrt2
    exact ⟨hext, hconf⟩

/-- Witness for the amended C4, at the spec's worked example: fragments
`[("Hi", 0.9), ("there", 0.7)]` give `extracted_text = "Hi there"` and
`ocr_confidence` equal to the mean of the confidences. -/
theorem C4_extracted_text_and_mean_witness :
    envOcr.ocrAvailable = true ∧
    envOcr.readtext fileW.data = Except.ok [("Hi", 9/10), ("there", 7/10)] ∧
    translate_image envOcr fileW "hi" none "mock" = Except.ok irespW ∧
    irespW.extracted_text =
      pyStrip (String.intercalate " "
        (([("Hi", (9:ℚ)/10), ("there", 7/10)]).map Prod.fst)) ∧
    irespW.extracted_text = "Hi there" ∧
    irespW.ocr_confidence =
      some ((([("Hi", (9:ℚ)/10), ("there", 7/10)]).map Prod.snd).sum /
        ((([("Hi", (9:ℚ)/10), ("there", 7/10)]).map Prod.snd).length : ℚ)) :=
  ⟨rfl, rfl, rfl,
   ((C4_extracted_text_and_mean envOcr fileW "hi" none "mock"
      [("Hi", 9/10), ("there", 7/10)] rfl rfl).2 irespW rfl).1,
   rfl,
   ((C4_extracted_text_and_mean envOcr fileW "hi" none "mock"
      [("Hi", 9/10), ("there", 7/10)] rfl rfl).2 irespW rfl).2⟩

/-- C5: dispatch with unspecified or unrecognized provider behaves exactly
as explicit `"deep"` (the primary provider), and any successful result
reports the primary provider name `"deep-translator"`. -/
theorem C5_default_provider_is_deep (env : Env) (payload : TranslationRequest)
    (h1 : payload.provider ≠ some "mock") (h2 : payload.provider ≠ some "google") :
    translate_text env payload =
      translate_text env { payload with provider := some "deep" } ∧
    ∀ resp, translate_text env payload = Except.ok resp →
      resp.provider = "deep-translator" := by
  constructor
  · unfold translate_text
    rw [if_neg h1, if_neg h2]
    rfl
  · intro resp h
    obtain ⟨pname, m, r, hresp, hcases⟩ := translate_text_ok_cases env payload resp h
    subst hresp
    rcases hcases with ⟨hm, _⟩ | ⟨hg, _⟩ | ⟨_, _, hpn, _⟩
    · exact absurd hm h1
    · exact absurd hg h2
    · simp [hpn, buildResponse]

/-- Witness for C5: an omitted provider gives the same call as `"deep"`. -/
theorem C5_default_provider_is_deep_witness :
    ((none : Option String) ≠ some "mock") ∧
    ((none : Option String) ≠ some "google") ∧
    translate_text envDegraded
        { text := "hello", target_lang := "hi", source_lang := none,
          provider := none } =
      translate_text envDegraded
        { text := "hello", target_lang := "hi", source_lang := none,
          provider := some "deep" } :=
  ⟨by decide, by decide,
   (C5_default_provider_is_deep envDegraded
      { text := "hello", target_lang := "hi", source_lang := none,
        provider := none } (by decide) (by decide)).1⟩

/-- C6: if the googletrans engine is not importable, every call through it
fails with the 503 provider-unavailable error without consulting the
translation oracle, every `/translate` request with provider `"google"`
fails the same way, and `/status` reports the googletrans provider as
unavailable. -/
theorem C6_googletrans_unavailable (env : Env)
    (h : env.googletransAvailable = false) :
    (∀ text sl tl, translate_with_googletrans env text sl tl = Except.error
        ⟨503, "Google Translate API not available. Install googletrans."⟩) ∧
    (∀ payload : TranslationRequest, payload.provider = some "google" →
      translate_text env payload = Except.error
        ⟨503, "Google Translate API not available. Install googletrans."⟩) ∧
    (get_translation_status env).googletrans = false := by
  refine ⟨?_, ?_, by simp [get_translation_status, h]⟩
  · intro text sl tl
    unfold translate_with_googletrans
    rw [if_neg (by simp [h])]
  · intro payload hp
    unfold translate_text
    rw [if_neg (by simp [hp]), if_pos hp]
    unfold translate_with_googletrans
    rw [if_neg (by simp [h])]
    rfl

/-- Witness for C6 on the degraded environment. -/
theorem C6_googletrans_unavailable_witness :
    envDegraded.googletransAvailable = false ∧
    translate_text envDegraded
        { text := "hello", target_lang := "hi", source_lang := none,
          provider := some "google" } = Except.error
      ⟨503, "Google Translate API not available. Install googletrans."⟩ ∧
    (get_translation_status envDegraded).googletrans = false :=
  ⟨rfl,
   (C6_googletrans_unavailable envDegraded rfl).2.1
     { text := "hello", target_lang := "hi", source_lang := none,
       provider := some "google" } rfl,
   (C6_googletrans_unavailable envDegraded rfl).2.2⟩

/-- C7: when the googletrans backend is unavailable, `/detect-language`
returns a successful response with code `"en"`, confidence 0.5 and the
registry name `"English"`, never an error. -/
theorem C7_detect_language_fallback (env : Env) (text : String)
    (h : env.googletransAvailable = false) :
    detect_language env text = Except.ok
      { detected_lang := "en", language_name := "English", confidence := 1/2 } := by
  unfold detect_language
  rw [if_neg (by simp [h])]
  rfl

/-- Witness for C7 on the degraded environment. -/
theorem C7_detect_language_fallback_witness :
    envDegraded.googletransAvailable = false ∧
    detect_language envDegraded "hola" = Except.ok
      { detected_lang := "en", language_name := "English", confidence := 1/2 } :=
  ⟨rfl, C7_detect_language_fallback envDegraded "hola" rfl⟩

/-- C8: for every result produced by `/translate`, `is_mock` is true exactly
when the mock provider variant was dispatched, and whenever `is_mock` is
true the provider field is `"mock"` and the confidence is exactly 1. -/
theorem C8_is_mock_invariant (env : Env) (payload : TranslationRequest)
    (resp : TranslationResponse) (h : translate_text env payload = Except.ok resp) :
    (resp.is_mock = true ↔ payload.provider = some "mock") ∧
    (resp.is_mock = true → resp.provider = "mock" ∧ resp.confidence = some 1) := by
  obtain ⟨pname, m, r, hresp, hcases⟩ := translate_text_ok_cases env payload resp h
  subst hresp
  rcases hcases with ⟨hm, hpn, hmt, hr⟩ | ⟨hg, hpn, hmt⟩ | ⟨hnm, _, hpn, hmt⟩
  · subst hpn hmt hr
    refine ⟨by simp [buildResponse, hm], fun _ => ⟨by simp [buildResponse], ?_⟩⟩
    simp [buildResponse, mock_translate]
  · subst hpn hmt
    refine ⟨by simp [buildResponse, hg], fun hfalse => ?_⟩
    simp [buildResponse] at hfalse
  · subst hpn hmt
    refine ⟨by simp [buildResponse, hnm], fun hfalse => ?_⟩
    simp [buildResponse] at hfalse

/-- Witness for C8 on a mock request. -/
theorem C8_is_mock_invariant_witness :
    translate_text envDegraded
        { text := "hello", target_lang := "hi", source_lang := none,
          provider := some "mock" } = Except.ok respMockHello ∧
    (respMockHello.is_mock = true ↔ (some "mock" : Option String) = some "mock") ∧
    (respMockHello.is_mock = true →
      respMockHello.provider = "mock" ∧ respMockHello.confidence = some 1) :=
  ⟨rfl,
   (C8_is_mock_invariant envDegraded
      { text := "hello", target_lang := "hi", source_lang := none,
        provider := some "mock" } respMockHello rfl).1,
   (C8_is_mock_invariant envDegraded
      { text := "hello", target_lang := "hi", source_lang := none,
        provider := some "mock" } respMockHello rfl).2⟩

/-- C9: while OCR is unavailable, `/translate-image` returns the 503 OCR
error even for non-image content types, and the 400 invalid-input error can
only ever arise when OCR is available. -/
theorem C9_ocr_check_before_content_type (env : Env) (file : UploadFileM)
    (tl : String) (sl : Option String) (pr : String)
    (hocr : env.ocrAvailable = false)
    (hct : pyStartsWith file.content_type "image/" = false) :
    translate_image env file tl sl pr = Except.error
      ⟨503, "OCR engine (EasyOCR) is not initialized. Please check server logs."⟩ ∧
    ∀ (env2 : Env) (f2 : UploadFileM) (tl2 : String) (sl2 : Option String)
      (pr2 : String),
      translate_image env2 f2 tl2 sl2 pr2 =
        Except.error ⟨400, "File must be an image"⟩ →
      env2.ocrAvailable = true := by
  constructor
  · unfold translate_image
    rw [if_neg (by simp [hocr])]
  · intro env2 f2 tl2 sl2 pr2 h
    by_cases h2 : env2.ocrAvailable
    · exact h2
    · exfalso
      unfold translate_image at h
      rw [if_neg (by simp [h2])] at h
      simp at h

/-- Witness for C9 on a non-image upload with OCR unavailable. -/
theorem C9_ocr_check_before_content_type_witness :
    envDegraded.ocrAvailable = false ∧
    pyStartsWith "text/plain" "image/" = false ∧
    translate_image envDegraded { content_type := "text/plain", data := [0] }
        "hi" none "deep" = Except.error
      ⟨503, "OCR engine (EasyOCR) is not initialized. Please check server logs."⟩ :=
  ⟨rfl, rfl,
   (C9_ocr_check_before_content_type envDegraded
      { content_type := "text/plain", data := [0] } "hi" none "deep" rfl rfl).1⟩

/-- C10: every successful `/translate-image` response carries an
`ocr_confidence` value: an empty fragment list never reaches a successful
response because the empty joined text fails the no-text check first. -/
theorem C10_ok_has_ocr_confidence (env : Env) (file : UploadFileM)
    (tl : String) (sl : Option String) (pr : String)
    (resp : ImageTranslationResponse)
    (h : translate_image env file tl sl pr = Except.ok resp) :
    resp.ocr_confidence ≠ none := by
  obtain ⟨results, _, _, _, _, hconf⟩ :=
    translate_image_ok_cases env file tl sl pr resp h
  rw [hconf]
  simp

/-- Witness for C10 on a successful image translation. -/
theorem C10_ok_has_ocr_confidence_witness :
    translate_image envOcr fileW "hi" none "mock" = Except.ok irespW ∧
    irespW.ocr_confidence ≠ none :=
  ⟨rfl, C10_ok_has_ocr_confidence envOcr fileW "hi" none "mock" irespW rfl⟩

/-- Witness for C2: the mock example instantiated on the degraded
environment. -/
theorem C2_mock_provider_behaviour_witness :
    mock_translate "hello" "hi" = ("[" ++ pyUpper "hi" ++ "] " ++ "hello", 1) ∧
    translate_text envDegraded
        { text := "hello", target_lang := "hi", source_lang := none,
          provider := some "mock" } = Except.ok respMockHello :=
  ⟨(C2_mock_provider_behaviour envDegraded).1 "hello" "hi",
   (C2_mock_provider_behaviour envDegraded).2.2.1⟩
